import Mathlib

/-!
Shallow embedding of the physics-simulation demo suite.

Each demo page carries its own integration loop; the definitions below
translate those loops function-by-function.  Rational-valued demos (ball
drop, spring, two-body gravity, friction slider) are embedded over `ℚ`,
demos whose formulas involve `π`, `sin`, `cos` or `sqrt` (drag drop,
pendulum, projectile) over `ℝ`.  Wall-clock quantities (the measured
delta between animation ticks) enter as explicit function arguments.
-/

namespace BallDrop

/-- Parameters of `BallDropComponent.vue`: `weight`, `gravity`, `ballSize`. -/
structure Params where
  weight : ℚ
  gravity : ℚ
  ballSize : ℚ
deriving DecidableEq

/-- Mutable state of the ball-drop loop: `ballY`, `velocity`, `isDropping`. -/
structure State where
  ballY : ℚ
  velocity : ℚ
  isDropping : Bool
deriving DecidableEq

/-- `const maxDrop = 393`. -/
def maxDrop : ℚ := 393

/-- `const damping = 0.7`. -/
def damping : ℚ := 0.7

/-- `const dt = 0.016` (frame time ~60fps, fixed; this demo does not read the clock). -/
def dt : ℚ := 0.016

/-- `startDrop`: cancels the pending frame and resets the state
(`ballY = 0`, `velocity = 0`, `isDropping = true`); it reads nothing
from the prior state. -/
def startDrop (_s : State) : State := ⟨0, 0, true⟩

/-- The velocity after the velocity update line of `simulate`:
`velocity += (gravity * weight) * dt`. -/
def newVelocity (p : Params) (s : State) : ℚ :=
  s.velocity + p.gravity * p.weight * dt

/-- One invocation of `simulate` in `BallDropComponent.vue`:
`velocity += gForce * dt; ballY += velocity` (note: the position line adds
the raw velocity, with no `dt` factor); on ground contact
(`ballY >= maxDrop - ballSize`) the position snaps to the contact value,
the velocity reflects with factor `damping = 0.7`, and the loop stops if
the reflected speed is below 1 (the velocity is kept, not zeroed). -/
def simulate (p : Params) (s : State) : State :=
  if s.isDropping then
    let v1 := newVelocity p s
    let y1 := s.ballY + v1
    let maxY := maxDrop - p.ballSize
    if y1 ≥ maxY then
      let v2 := -v1 * damping
      if |v2| < 1 then ⟨maxY, v2, false⟩
      else ⟨maxY, v2, true⟩
    else ⟨y1, v1, true⟩
  else s

end BallDrop

namespace DropSim

/-- Parameters of `DropSimulationComponent.vue`. -/
structure Params where
  weight : ℝ
  gravity : ℝ
  objectSize : ℝ
  airDensity : ℝ
  dragCoefficient : ℝ

/-- Mutable state of the drag-drop loop. -/
structure State where
  ballY : ℝ
  velocity : ℝ
  isDropping : Bool

/-- `const pxToM = 0.01`. -/
noncomputable def pxToM : ℝ := 0.01

/-- `const mToPx = 100`. -/
noncomputable def mToPx : ℝ := 100

/-- `const restitution = 0.8`. -/
noncomputable def restitution : ℝ := 0.8

/-- `const maxDrop = 393.5`. -/
noncomputable def maxDrop : ℝ := 393.5

/-- `const dt = 0.016` (fixed frame time; this demo does not read the clock). -/
noncomputable def dt : ℝ := 0.016

/-- `crossSectionArea = Math.PI * (objectSize * pxToM / 2) ** 2`. -/
noncomputable def crossSectionArea (p : Params) : ℝ :=
  Real.pi * (p.objectSize * pxToM / 2) ^ 2

/-- `dragForce = 0.5 * airDensity * velocityInMs ** 2 * dragCoefficient * crossSectionArea`. -/
noncomputable def dragForce (p : Params) (s : State) : ℝ :=
  0.5 * p.airDensity * (s.velocity * pxToM) ^ 2 * p.dragCoefficient * crossSectionArea p

/-- `totalForce = gForce + dragForce * dragDirection`, where
`gForce = gravity * weight` and `dragDirection = Math.sign(velocityInMs) * -1`. -/
noncomputable def totalForce (p : Params) (s : State) : ℝ :=
  p.gravity * p.weight + dragForce p s * (Real.sign (s.velocity * pxToM) * -1)

/-- The velocity after the velocity update line of `simulate`:
`velocity += (totalForce / weight) * dt * mToPx`. -/
noncomputable def newVelocity (p : Params) (s : State) : ℝ :=
  s.velocity + totalForce p s / p.weight * dt * mToPx

/-- One invocation of `simulate` in `DropSimulationComponent.vue`:
semi-implicit Euler (`ballY += velocity * dt` with the updated velocity);
on ground contact the position snaps to `maxDrop - objectSize`, the
velocity reflects with `restitution = 0.8`, and if the reflected speed is
below `0.5 * mToPx` the loop stops and the velocity is set to exactly 0. -/
noncomputable def simulate (p : Params) (s : State) : State :=
  if s.isDropping then
    let v1 := newVelocity p s
    let y1 := s.ballY + v1 * dt
    let maxY := maxDrop - p.objectSize
    if y1 ≥ maxY then
      let v2 := -v1 * restitution
      if |v2| < 0.5 * mToPx then ⟨maxY, 0, false⟩
      else ⟨maxY, v2, true⟩
    else ⟨y1, v1, true⟩
  else s

/-- `startDrop` of the drag-drop demo: cancels the pending frame and
resets the state (`ballY = 0`, `velocity = 0`, `isDropping = true`); it
reads nothing from the prior state. -/
noncomputable def startDrop (_s : State) : State := ⟨0, 0, true⟩

end DropSim

namespace Spring

/-- Parameters of `SpringOscillationSimulationComponent.vue`. -/
structure Params where
  mass : ℚ
  springConstant : ℚ
  dampingCoefficient : ℚ
  initialDisplacement : ℚ
  gravityMultiplier : ℚ
deriving DecidableEq

/-- Mutable state of the spring loop, including the trajectory trace
`pathPoints` (pairs `(t, y)`). -/
structure State where
  position : ℚ
  velocity : ℚ
  acceleration : ℚ
  time : ℚ
  isRunning : Bool
  pathPoints : List (ℚ × ℚ)
deriving DecidableEq

/-- `startSimulation`: a no-op when a run is already `Running`
(`if (isRunning.value) return`), otherwise resets the whole state from the
parameters and pushes the initial trajectory sample. -/
def startSimulation (p : Params) (s : State) : State :=
  if s.isRunning then s
  else
    { position := p.initialDisplacement
      velocity := 0
      acceleration := 0
      time := 0
      isRunning := true
      pathPoints := [(0, p.initialDisplacement)] }

/-- `acceleration = (springForce + dampingForce) / mass` with
`springForce = -springConstant * position` and
`dampingForce = -dampingCoefficient * velocity`. -/
def accelerationOf (p : Params) (s : State) : ℚ :=
  (-p.springConstant * s.position + -p.dampingCoefficient * s.velocity) / p.mass

/-- One invocation of `updateSimulation`: the measured wall-clock delta
(seconds) is multiplied by `gravityMultiplier` and applied directly —
this loop has no clamp and no skip.  Velocity updates first, position
uses the updated velocity. -/
def updateSimulation (p : Params) (measured : ℚ) (s : State) : State :=
  if s.isRunning then
    let deltaTime := measured * p.gravityMultiplier
    let time1 := s.time + deltaTime
    let acceleration1 := accelerationOf p s
    let velocity1 := s.velocity + acceleration1 * deltaTime
    let position1 := s.position + velocity1 * deltaTime
    let pathPoints1 :=
      if s.pathPoints.length < 2 ∨ time1 - (s.pathPoints.getLastD (0, 0)).1 > 0.016 then
        s.pathPoints ++ [(time1, position1)]
      else s.pathPoints
    ⟨position1, velocity1, acceleration1, time1, true, pathPoints1⟩
  else s

end Spring

namespace Pendulum

/-- Parameters of `PendulumSwingSimulationComponent.vue`
(`initialAngle` in degrees). -/
structure Params where
  length : ℝ
  mass : ℝ
  gravity : ℝ
  initialAngle : ℝ
  damping : ℝ

/-- Mutable state of the pendulum loop (angle in radians). -/
structure State where
  angle : ℝ
  angularVelocity : ℝ
  isSwinging : Bool

/-- `lengthMeters = length / 100` (px to meters). -/
noncomputable def lengthMeters (p : Params) : ℝ := p.length / 100

/-- The computed `period`: small-angle `T = 2π·√(L/g)`, multiplied by the
large-angle series correction `1 + θ0²/16 + 11θ0⁴/3072` when
`θ0 = |initialAngle|·π/180` exceeds 0.1 rad. -/
noncomputable def period (p : Params) : ℝ :=
  let theta0 := |p.initialAngle| * (Real.pi / 180)
  let T := 2 * Real.pi * Real.sqrt (lengthMeters p / p.gravity)
  if theta0 > 0.1 then T * (1 + theta0 ^ 2 / 16 + 11 * theta0 ^ 4 / 3072)
  else T

/-- `angularAcceleration = -(gravity / lengthMeters) * sin(angle) - damping * angularVelocity`. -/
noncomputable def angularAcceleration (p : Params) (s : State) : ℝ :=
  -(p.gravity / lengthMeters p) * Real.sin s.angle - p.damping * s.angularVelocity

/-- One invocation of `simulate`: ticks whose measured delta exceeds 0.05 s
are skipped entirely (`if (dt > 0.05) { ... return }`); otherwise
semi-implicit Euler on the angle. -/
noncomputable def simulate (p : Params) (dt : ℝ) (s : State) : State :=
  if s.isSwinging then
    if dt > 0.05 then s
    else
      let w1 := s.angularVelocity + angularAcceleration p s * dt
      ⟨s.angle + w1 * dt, w1, true⟩
  else s

/-- `startSwing`: resets angle and angular velocity from the parameters;
it reads nothing from the prior state. -/
noncomputable def startSwing (p : Params) (_s : State) : State :=
  ⟨p.initialAngle * (Real.pi / 180), 0, true⟩

end Pendulum

namespace Gravity

/-- `const G = 6.67430e-11`. -/
def G : ℚ := 6.67430e-11

/-- `const pxToM = 1e6` (1 px = 1,000,000 m). -/
def pxToM : ℚ := 1e6

/-- `const mToPx = 1 / pxToM`. -/
def mToPx : ℚ := 1 / pxToM

/-- Parameters of `GravityAttractionSimulationComponent.vue`. -/
structure Params where
  mass1 : ℚ
  mass2 : ℚ
  radius1 : ℚ
  radius2 : ℚ
  gravityMultiplier : ℚ
deriving DecidableEq

/-- Mutable state of the two-body loop (horizontal positions in px,
velocities in m/s). -/
structure State where
  pos1X : ℚ
  pos2X : ℚ
  vel1X : ℚ
  vel2X : ℚ
  isRunning : Bool
deriving DecidableEq

/-- `distanceMeters = |pos2X - pos1X| * pxToM`. -/
def distanceMeters (s : State) : ℚ := |s.pos2X - s.pos1X| * pxToM

/-- `gravitationalForce`: `G * mass1 * mass2 / r²`, 0 when `r ≤ 0`. -/
def gravitationalForce (p : Params) (s : State) : ℚ :=
  let r := distanceMeters s
  if r ≤ 0 then 0 else G * p.mass1 * p.mass2 / (r * r)

/-- `direction = pos2X > pos1X ? 1 : -1`. -/
def direction (s : State) : ℚ := if s.pos2X > s.pos1X then 1 else -1

/-- One invocation of `simulate` in the two-body demo.  Order of checks,
as in the source: skip the tick when the measured `dt` exceeds 0.1 s
(state untouched); stop when the separation is within the sum of the
radii (state otherwise untouched, no restitution); else integrate —
each body gets `velocity += (F/mass) * dt * direction` (opposite
directions, same force magnitude `F`) and
`position += velocity * mToPx * dt` with the updated velocity. -/
def simulate (p : Params) (dt : ℚ) (s : State) : State :=
  if s.isRunning then
    if dt > 0.1 then s
    else
      let rMeters := distanceMeters s
      if rMeters ≤ (p.radius1 + p.radius2) * pxToM then
        { s with isRunning := false }
      else
        let F := gravitationalForce p s * p.gravityMultiplier
        let a1 := F / p.mass1
        let a2 := F / p.mass2
        let vel1 := s.vel1X + a1 * dt * direction s
        let vel2 := s.vel2X - a2 * dt * direction s
        { pos1X := s.pos1X + vel1 * mToPx * dt
          pos2X := s.pos2X + vel2 * mToPx * dt
          vel1X := vel1
          vel2X := vel2
          isRunning := true }
  else s

/-- `startSimulation` of the two-body demo: cancels the pending frame
and resets positions from the preview width, initial distance and radii,
and velocities to `initialVelocity` and `-initialVelocity`; it reads
nothing from the prior state. -/
def startSimulation (p : Params) (previewWidth initialDistance initialVelocity : ℚ)
    (_s : State) : State :=
  ⟨previewWidth / 2 - initialDistance / 2 - p.radius1,
   previewWidth / 2 + initialDistance / 2 - p.radius2,
   initialVelocity, -initialVelocity, true⟩

end Gravity

namespace Friction

/-- `const pxToM = 0.01`. -/
def pxToM : ℚ := 0.01

/-- `const mToPx = 100`. -/
def mToPx : ℚ := 100

/-- `const restitution = 0.5`. -/
def restitution : ℚ := 0.5

/-- Parameters of `FrictionSliderSimulationComponent.vue`
(`maxDistance` is the measured track width in px). -/
structure Params where
  mass : ℚ
  gravity : ℚ
  kineticFriction : ℚ
  objectWidth : ℚ
  objectHeight : ℚ
  airDensity : ℚ
  dragCoefficient : ℚ
  maxDistance : ℚ
deriving DecidableEq

/-- Mutable state of the friction-slider loop (`positionX`, `velocity`
in px and px/s). -/
structure State where
  positionX : ℚ
  velocity : ℚ
  isSliding : Bool
deriving DecidableEq

/-- The value `newVelocityMs` of `simulate`: kinetic friction plus
quadratic drag, direction opposing the current velocity sign, one Euler
velocity step in m/s. -/
def newVelocityMs (p : Params) (dt : ℚ) (s : State) : ℚ :=
  let velocityMs := s.velocity * pxToM
  let totalForce := p.kineticFriction * (p.mass * p.gravity) +
    0.5 * p.airDensity * velocityMs ^ 2 * p.dragCoefficient *
      ((p.objectHeight * pxToM) * (p.objectWidth * pxToM))
  let direction : ℚ := if velocityMs > 0 then -1 else 1
  velocityMs + totalForce * direction / p.mass * dt

/-- The position after the update line of `simulate`:
`positionX += ((velocityMs + newVelocityMs) / 2) * dt * mToPx`
(trapezoidal: average of old and new velocity). -/
def newPosition (p : Params) (dt : ℚ) (s : State) : ℚ :=
  s.positionX + ((s.velocity * pxToM + newVelocityMs p dt s) / 2) * dt * mToPx

/-- One invocation of `simulate` in the friction-slider demo: skip when
the measured `dt` exceeds 0.1 s; integrate; snap-and-reflect at the two
track walls (right wall: `positionX = maxDistance - objectWidth`,
`velocity = -|v| * 0.5`; left wall: `positionX = 0`,
`velocity = |v| * 0.5`); then stop with velocity exactly 0 when
`|newVelocityMs| ≤ 0.01`. -/
def simulate (p : Params) (dt : ℚ) (s : State) : State :=
  if s.isSliding then
    if dt > 0.1 then s
    else
      let newVMs := newVelocityMs p dt s
      let velocity1 := newVMs * mToPx
      let position1 := newPosition p dt s
      let bounced :=
        if position1 + p.objectWidth ≥ p.maxDistance then
          (p.maxDistance - p.objectWidth, -|velocity1| * restitution)
        else if position1 ≤ 0 then
          ((0 : ℚ), |velocity1| * restitution)
        else (position1, velocity1)
      if |newVMs| ≤ 0.01 then ⟨bounced.1, 0, false⟩
      else ⟨bounced.1, bounced.2, true⟩
  else s

/-- `startSlide`: cancels the pending frame and resets the state
(`positionX = 0`, `velocity = initialVelocity * mToPx`,
`isSliding = true`); it reads nothing from the prior state. -/
def startSlide (initialVelocity : ℚ) (_s : State) : State :=
  ⟨0, initialVelocity * mToPx, true⟩

end Friction

namespace Projectile

/-- `const pxPerMeter = 5`. -/
noncomputable def pxPerMeter : ℝ := 5

/-- Parameters of the projectile demo (`launchAngle` in degrees). -/
structure Params where
  launchAngle : ℝ
  launchVelocity : ℝ
  initialHeight : ℝ
  g : ℝ
  gravityMultiplier : ℝ

/-- Mutable state of the projectile loop (positions in px). -/
structure State where
  posX : ℝ
  posY : ℝ
  isRunning : Bool
  pathPoints : List (ℝ × ℝ)

/-- `vx = launchVelocity * cos(angleRad)`. -/
noncomputable def vx (p : Params) : ℝ :=
  p.launchVelocity * Real.cos (p.launchAngle * Real.pi / 180)

/-- `vy0 = launchVelocity * sin(angleRad)`. -/
noncomputable def vy0 (p : Params) : ℝ :=
  p.launchVelocity * Real.sin (p.launchAngle * Real.pi / 180)

/-- `totalFlightTime = (vy + sqrt(vy² + 2·g·h)) / g`. -/
noncomputable def totalFlightTime (p : Params) : ℝ :=
  (vy0 p + Real.sqrt (vy0 p * vy0 p + 2 * p.g * p.initialHeight)) / p.g

/-- `horizontalRange = vx * totalFlightTime`. -/
noncomputable def horizontalRange (p : Params) : ℝ :=
  vx p * totalFlightTime p

/-- `landingX = horizontalRange * pxPerMeter` (and `landingY = 0`). -/
noncomputable def landingX (p : Params) : ℝ :=
  horizontalRange p * pxPerMeter

/-- One invocation of `step` inside `simulate` of the projectile demo:
the elapsed time (measured wall-clock seconds times `gravityMultiplier`)
is clamped to `totalFlightTime` by `Math.min`; the position is the
closed-form kinematics value, with the vertical coordinate clamped at
the ground by `Math.max(y, 0)` before the pixel scaling; when the clamped
elapsed time reaches `totalFlightTime` the final position is set exactly
to the landing point `(landingX, 0)` and the run stops. -/
noncomputable def step (p : Params) (rawElapsed : ℝ) (s : State) : State :=
  let elapsedTime := min (rawElapsed * p.gravityMultiplier) (totalFlightTime p)
  let x := vx p * elapsedTime
  let y := p.initialHeight + vy0 p * elapsedTime - 0.5 * p.g * elapsedTime * elapsedTime
  let posX1 := x * pxPerMeter
  let posY1 := max y 0 * pxPerMeter
  let pathPoints1 :=
    if s.pathPoints.length < 2 ∨
        |posX1 - (s.pathPoints.getLastD (0, 0)).1| > 5 ∨
        |posY1 - (s.pathPoints.getLastD (0, 0)).2| > 5 then
      s.pathPoints ++ [(posX1, posY1)]
    else s.pathPoints
  if elapsedTime ≥ totalFlightTime p then
    { posX := landingX p
      posY := 0
      isRunning := false
      pathPoints := pathPoints1 ++ [(landingX p, 0)] }
  else
    { posX := posX1
      posY := posY1
      isRunning := s.isRunning
      pathPoints := pathPoints1 }

/-- `startSimulation` of the projectile demo: the `isRunning` guard only
cancels the pending frame; the reset below it is unconditional
(`posX = 0`, `posY = initialHeight * pxPerMeter`, the trajectory cleared
to the single initial sample, `isRunning = true`) and reads nothing from
the prior state. -/
noncomputable def startSimulation (p : Params) (_s : State) : State :=
  ⟨0, p.initialHeight * pxPerMeter, true,
   [(0, p.initialHeight * pxPerMeter)]⟩

end Projectile


section

attribute [local semireducible] Rat.mul Rat.add Rat.sub Rat.inv Rat.ofScientific

/-! Step-characterization lemmas, one per reachable branch of each loop.
They are shared by the claim theorems below. -/

/-- Ball drop, no ground contact this tick. -/
theorem BallDrop.ballDrop_step_no_bounce (p : Params) (s : State)
    (h : s.isDropping = true)
    (hb : ¬ s.ballY + newVelocity p s ≥ maxDrop - p.ballSize) :
    simulate p s = ⟨s.ballY + newVelocity p s, newVelocity p s, true⟩ := by
  simp only [simulate]
  rw [if_pos h, if_neg hb]

/-- Ball drop, ground contact with the reflected speed still at least 1. -/
theorem BallDrop.ballDrop_step_bounce_continue (p : Params) (s : State)
    (h : s.isDropping = true)
    (hb : s.ballY + newVelocity p s ≥ maxDrop - p.ballSize)
    (hr : ¬ |(-(newVelocity p s)) * damping| < 1) :
    simulate p s = ⟨maxDrop - p.ballSize, -(newVelocity p s) * damping, true⟩ := by
  simp only [simulate]
  rw [if_pos h, if_pos hb, if_neg hr]

/-- Ball drop, ground contact with the reflected speed below 1: the loop
stops and keeps the reflected velocity (it is not set to zero). -/
theorem BallDrop.ballDrop_step_bounce_rest (p : Params) (s : State)
    (h : s.isDropping = true)
    (hb : s.ballY + newVelocity p s ≥ maxDrop - p.ballSize)
    (hr : |(-(newVelocity p s)) * damping| < 1) :
    simulate p s = ⟨maxDrop - p.ballSize, -(newVelocity p s) * damping, false⟩ := by
  simp only [simulate]
  rw [if_pos h, if_pos hb, if_pos hr]

/-- Drag drop, no ground contact this tick. -/
theorem DropSim.dropSim_step_no_bounce (p : Params) (s : State)
    (h : s.isDropping = true)
    (hb : ¬ s.ballY + newVelocity p s * dt ≥ maxDrop - p.objectSize) :
    simulate p s = ⟨s.ballY + newVelocity p s * dt, newVelocity p s, true⟩ := by
  simp only [simulate]
  rw [if_pos h, if_neg hb]

/-- Drag drop, ground contact with the reflected speed at least the
rest threshold. -/
theorem DropSim.dropSim_step_bounce_continue (p : Params) (s : State)
    (h : s.isDropping = true)
    (hb : s.ballY + newVelocity p s * dt ≥ maxDrop - p.objectSize)
    (hr : ¬ |(-(newVelocity p s)) * restitution| < 0.5 * mToPx) :
    simulate p s = ⟨maxDrop - p.objectSize, -(newVelocity p s) * restitution, true⟩ := by
  simp only [simulate]
  rw [if_pos h, if_pos hb, if_neg hr]

/-- Drag drop, ground contact with the reflected speed below the rest
threshold: the loop stops and the velocity is set to exactly 0. -/
theorem DropSim.dropSim_step_bounce_rest (p : Params) (s : State)
    (h : s.isDropping = true)
    (hb : s.ballY + newVelocity p s * dt ≥ maxDrop - p.objectSize)
    (hr : |(-(newVelocity p s)) * restitution| < 0.5 * mToPx) :
    simulate p s = ⟨maxDrop - p.objectSize, 0, false⟩ := by
  simp only [simulate]
  rw [if_pos h, if_pos hb, if_pos hr]

/-- Spring, running tick: the measured delta is applied unconditionally
(there is no clamp branch in this loop). -/
theorem Spring.updateSimulation_running (p : Params) (measured : ℚ) (s : State)
    (h : s.isRunning = true) :
    updateSimulation p measured s =
      ⟨s.position + (s.velocity + accelerationOf p s * (measured * p.gravityMultiplier))
          * (measured * p.gravityMultiplier),
       s.velocity + accelerationOf p s * (measured * p.gravityMultiplier),
       accelerationOf p s,
       s.time + measured * p.gravityMultiplier,
       true,
       if s.pathPoints.length < 2 ∨
           s.time + measured * p.gravityMultiplier - (s.pathPoints.getLastD (0, 0)).1 > 0.016 then
         s.pathPoints ++ [(s.time + measured * p.gravityMultiplier,
           s.position + (s.velocity + accelerationOf p s * (measured * p.gravityMultiplier))
             * (measured * p.gravityMultiplier))]
       else s.pathPoints⟩ := by
  simp only [updateSimulation]
  rw [if_pos h]

/-- Pendulum, skipped tick (`dt > 0.05`): the state is untouched. -/
theorem Pendulum.pendulum_step_skip (p : Params) (dt : ℝ) (s : State)
    (h : s.isSwinging = true) (hdt : dt > 0.05) :
    simulate p dt s = s := by
  simp only [simulate]
  rw [if_pos h, if_pos hdt]

/-- Pendulum, integrating tick. -/
theorem Pendulum.pendulum_step_integrate (p : Params) (dt : ℝ) (s : State)
    (h : s.isSwinging = true) (hdt : ¬ dt > 0.05) :
    simulate p dt s =
      ⟨s.angle + (s.angularVelocity + angularAcceleration p s * dt) * dt,
       s.angularVelocity + angularAcceleration p s * dt, true⟩ := by
  simp only [simulate]
  rw [if_pos h, if_neg hdt]

/-- Two-body, skipped tick (`dt > 0.1`): the state is untouched and in
particular the contact check is not performed. -/
theorem Gravity.gravity_step_skip (p : Params) (dt : ℚ) (s : State)
    (h : s.isRunning = true) (hdt : dt > 0.1) :
    simulate p dt s = s := by
  simp only [simulate]
  rw [if_pos h, if_pos hdt]

/-- Two-body, contact at the start of an executed tick: the run stops
with every position and velocity untouched (no restitution). -/
theorem Gravity.gravity_step_contact_stop (p : Params) (dt : ℚ) (s : State)
    (h : s.isRunning = true) (hdt : ¬ dt > 0.1)
    (hc : distanceMeters s ≤ (p.radius1 + p.radius2) * pxToM) :
    simulate p dt s = { s with isRunning := false } := by
  simp only [simulate]
  rw [if_pos h, if_neg hdt, if_pos hc]

/-- Two-body, integrating tick. -/
theorem Gravity.gravity_step_integrate (p : Params) (dt : ℚ) (s : State)
    (h : s.isRunning = true) (hdt : ¬ dt > 0.1)
    (hc : ¬ distanceMeters s ≤ (p.radius1 + p.radius2) * pxToM) :
    simulate p dt s =
      { pos1X := s.pos1X + (s.vel1X + gravitationalForce p s * p.gravityMultiplier / p.mass1
            * dt * direction s) * mToPx * dt
        pos2X := s.pos2X + (s.vel2X - gravitationalForce p s * p.gravityMultiplier / p.mass2
            * dt * direction s) * mToPx * dt
        vel1X := s.vel1X + gravitationalForce p s * p.gravityMultiplier / p.mass1
            * dt * direction s
        vel2X := s.vel2X - gravitationalForce p s * p.gravityMultiplier / p.mass2
            * dt * direction s
        isRunning := true } := by
  simp only [simulate]
  rw [if_pos h, if_neg hdt, if_neg hc]

/-- Friction slider, skipped tick (`dt > 0.1`): the state is untouched. -/
theorem Friction.friction_step_skip (p : Params) (dt : ℚ) (s : State)
    (h : s.isSliding = true) (hdt : dt > 0.1) :
    simulate p dt s = s := by
  simp only [simulate]
  rw [if_pos h, if_pos hdt]


/-- Claim C1, counterexample: on the very first tick of the ball-drop demo
(weight 1, gravity 9.8, ball size 40, from the reset state) the position
increment is not the new velocity multiplied by the step `dt`: the code
adds the raw velocity (`ballY += velocity`), so the claimed relation
`ballY = old ballY + velocity * dt` fails there. -/
theorem C1_ball_drop_position_increment_lacks_dt :
    ¬ ((BallDrop.simulate ⟨1, 9.8, 40⟩ (BallDrop.startDrop ⟨0, 0, false⟩)).ballY
        = (BallDrop.startDrop ⟨0, 0, false⟩).ballY
          + (BallDrop.simulate ⟨1, 9.8, 40⟩ (BallDrop.startDrop ⟨0, 0, false⟩)).velocity
            * BallDrop.dt) := by decide

/-- Claim C1 (amended): on every integrating tick, each demo updates the
velocity first (`velocity += acceleration * dt`, with the unit-conversion
factors of the source) and then the position from the updated velocity.
The drag drop, spring, pendulum and gravity-pair demos add the new
velocity multiplied by the same `dt`; the ball-drop demo adds the raw new
velocity with no `dt` factor. -/
theorem C1_integration_scheme
    (p₁ : BallDrop.Params) (s₁ : BallDrop.State)
    (q : DropSim.Params) (t : DropSim.State)
    (sp : Spring.Params) (m : ℚ) (ss : Spring.State)
    (pp : Pendulum.Params) (dtp : ℝ) (ps : Pendulum.State)
    (gp : Gravity.Params) (dtg : ℚ) (gs : Gravity.State)
    (h₁ : s₁.isDropping = true)
    (h₂ : ¬ s₁.ballY + BallDrop.newVelocity p₁ s₁ ≥ BallDrop.maxDrop - p₁.ballSize)
    (h₃ : t.isDropping = true)
    (h₄ : ¬ t.ballY + DropSim.newVelocity q t * DropSim.dt ≥ DropSim.maxDrop - q.objectSize)
    (h₅ : ss.isRunning = true)
    (h₆ : ps.isSwinging = true)
    (h₇ : ¬ dtp > 0.05)
    (h₈ : gs.isRunning = true)
    (h₉ : ¬ dtg > 0.1)
    (h₁₀ : ¬ Gravity.distanceMeters gs ≤ (gp.radius1 + gp.radius2) * Gravity.pxToM) :
    (BallDrop.simulate p₁ s₁).velocity
        = s₁.velocity + p₁.gravity * p₁.weight * BallDrop.dt ∧
    (BallDrop.simulate p₁ s₁).ballY = s₁.ballY + (BallDrop.simulate p₁ s₁).velocity ∧
    (DropSim.simulate q t).velocity
        = t.velocity + DropSim.totalForce q t / q.weight * DropSim.dt * DropSim.mToPx ∧
    (DropSim.simulate q t).ballY = t.ballY + (DropSim.simulate q t).velocity * DropSim.dt ∧
    (Spring.updateSimulation sp m ss).velocity
        = ss.velocity + Spring.accelerationOf sp ss * (m * sp.gravityMultiplier) ∧
    (Spring.updateSimulation sp m ss).position
        = ss.position + (Spring.updateSimulation sp m ss).velocity * (m * sp.gravityMultiplier) ∧
    (Pendulum.simulate pp dtp ps).angularVelocity
        = ps.angularVelocity + Pendulum.angularAcceleration pp ps * dtp ∧
    (Pendulum.simulate pp dtp ps).angle
        = ps.angle + (Pendulum.simulate pp dtp ps).angularVelocity * dtp ∧
    (Gravity.simulate gp dtg gs).vel1X
        = gs.vel1X + Gravity.gravitationalForce gp gs * gp.gravityMultiplier / gp.mass1
            * dtg * Gravity.direction gs ∧
    (Gravity.simulate gp dtg gs).vel2X
        = gs.vel2X - Gravity.gravitationalForce gp gs * gp.gravityMultiplier / gp.mass2
            * dtg * Gravity.direction gs ∧
    (Gravity.simulate gp dtg gs).pos1X
        = gs.pos1X + (Gravity.simulate gp dtg gs).vel1X * Gravity.mToPx * dtg ∧
    (Gravity.simulate gp dtg gs).pos2X
        = gs.pos2X + (Gravity.simulate gp dtg gs).vel2X * Gravity.mToPx * dtg := by
  rw [BallDrop.ballDrop_step_no_bounce p₁ s₁ h₁ h₂,
    DropSim.dropSim_step_no_bounce q t h₃ h₄,
    Spring.updateSimulation_running sp m ss h₅,
    Pendulum.pendulum_step_integrate pp dtp ps h₆ h₇,
    Gravity.gravity_step_integrate gp dtg gs h₈ h₉ h₁₀]
  refine ⟨rfl, rfl, rfl, rfl, rfl, rfl, rfl, rfl, rfl, rfl, rfl, rfl⟩

/-- Claim C1 witness: all hypotheses of `C1_integration_scheme` hold at a
concrete input, and the instantiated conclusion follows by applying it. -/
theorem C1_integration_scheme_witness :
    ((⟨0, 0, true⟩ : BallDrop.State).isDropping = true ∧
      ¬ (0 : ℚ) + BallDrop.newVelocity ⟨1, 9.8, 40⟩ ⟨0, 0, true⟩
          ≥ BallDrop.maxDrop - 40) ∧
    (BallDrop.simulate ⟨1, 9.8, 40⟩ ⟨0, 0, true⟩).velocity
        = 0 + 9.8 * 1 * BallDrop.dt ∧
    (Spring.updateSimulation ⟨1, 100, 5, 0.5, 1⟩ 0.016
        ⟨0.5, 0, 0, 0, true, [(0, 0.5)]⟩).velocity
      = 0 + Spring.accelerationOf ⟨1, 100, 5, 0.5, 1⟩ ⟨0.5, 0, 0, 0, true, [(0, 0.5)]⟩
          * (0.016 * 1) := by
  have h₁ : (⟨0, 0, true⟩ : BallDrop.State).isDropping = true := rfl
  have h₂ : ¬ (⟨0, 0, true⟩ : BallDrop.State).ballY
      + BallDrop.newVelocity ⟨1, 9.8, 40⟩ ⟨0, 0, true⟩
      ≥ BallDrop.maxDrop - (⟨1, 9.8, 40⟩ : BallDrop.Params).ballSize := by decide
  have h₃ : (⟨0, 100, true⟩ : DropSim.State).isDropping = true := rfl
  have h₄ : ¬ (⟨0, 100, true⟩ : DropSim.State).ballY
      + DropSim.newVelocity ⟨1, 9.8, 40, 0, 0.47⟩ ⟨0, 100, true⟩ * DropSim.dt
      ≥ DropSim.maxDrop - (⟨1, 9.8, 40, 0, 0.47⟩ : DropSim.Params).objectSize := by
    have hnv : DropSim.newVelocity ⟨1, 9.8, 40, 0, 0.47⟩ ⟨0, 100, true⟩ = 115.68 := by
      simp only [DropSim.newVelocity, DropSim.totalForce, DropSim.dragForce,
        DropSim.crossSectionArea, DropSim.pxToM, DropSim.mToPx, DropSim.dt]
      norm_num
    rw [hnv]
    simp only [DropSim.maxDrop, DropSim.dt]
    norm_num
  have h₅ : (⟨0.5, 0, 0, 0, true, [(0, 0.5)]⟩ : Spring.State).isRunning = true := rfl
  have h₆ : (Pendulum.startSwing ⟨200, 1, 9.81, 30, 0.002⟩ ⟨0, 0, false⟩).isSwinging
      = true := rfl
  have h₇ : ¬ (0.016 : ℝ) > 0.05 := by norm_num
  have h₈ : (⟨0, 50, 0, 0, true⟩ : Gravity.State).isRunning = true := rfl
  have h₉ : ¬ (0.016 : ℚ) > 0.1 := by decide
  have h₁₀ : ¬ Gravity.distanceMeters ⟨0, 50, 0, 0, true⟩
      ≤ ((⟨2, 3, 30, 15, 1⟩ : Gravity.Params).radius1
          + (⟨2, 3, 30, 15, 1⟩ : Gravity.Params).radius2) * Gravity.pxToM := by decide
  have key := C1_integration_scheme ⟨1, 9.8, 40⟩ ⟨0, 0, true⟩
    ⟨1, 9.8, 40, 0, 0.47⟩ ⟨0, 100, true⟩
    ⟨1, 100, 5, 0.5, 1⟩ 0.016 ⟨0.5, 0, 0, 0, true, [(0, 0.5)]⟩
    ⟨200, 1, 9.81, 30, 0.002⟩ 0.016 (Pendulum.startSwing ⟨200, 1, 9.81, 30, 0.002⟩ ⟨0, 0, false⟩)
    ⟨2, 3, 30, 15, 1⟩ 0.016 ⟨0, 50, 0, 0, true⟩
    h₁ h₂ h₃ h₄ h₅ h₆ h₇ h₈ h₉ h₁₀
  exact ⟨⟨h₁, h₂⟩, key.1, key.2.2.2.2.1⟩

/-- Claim C2, counterexample: the spring demo measures the wall-clock
delta but applies it with no clamp: a tick with measured `dt = 0.2 s`
(above the claimed 0.1 s clamp) is not skipped — it changes the velocity
(and the position) of the state. -/
theorem C2_spring_applies_unclamped_dt :
    (0.2 : ℚ) > 0.1 ∧
    (Spring.updateSimulation ⟨1, 100, 5, 0.5, 1⟩ 0.2
        ⟨0.5, 0, 0, 0, true, [(0, 0.5)]⟩).velocity
      ≠ (⟨0.5, 0, 0, 0, true, [(0, 0.5)]⟩ : Spring.State).velocity := by
  constructor
  · decide
  · decide

/-- Claim C2 (amended): of the demos that measure wall-clock time, the
gravity and friction demos skip (state untouched) any tick whose measured
`dt` exceeds 0.1 s, and the pendulum demo skips any tick whose measured
`dt` exceeds its clamp of 0.05 s; the spring demo applies the measured
delta (times `gravityMultiplier`) to the integration step with no clamp
and no skip. -/
theorem C2_clamp_skip_policies
    (gp : Gravity.Params) (dtg : ℚ) (gs : Gravity.State)
    (pp : Pendulum.Params) (dtp : ℝ) (ps : Pendulum.State)
    (fp : Friction.Params) (dtf : ℚ) (fs : Friction.State)
    (sp : Spring.Params) (m : ℚ) (ss : Spring.State)
    (h₁ : gs.isRunning = true) (h₂ : dtg > 0.1)
    (h₃ : ps.isSwinging = true) (h₄ : dtp > 0.05)
    (h₅ : fs.isSliding = true) (h₆ : dtf > 0.1)
    (h₇ : ss.isRunning = true) :
    Gravity.simulate gp dtg gs = gs ∧
    Pendulum.simulate pp dtp ps = ps ∧
    Friction.simulate fp dtf fs = fs ∧
    (Spring.updateSimulation sp m ss).velocity
        = ss.velocity + Spring.accelerationOf sp ss * (m * sp.gravityMultiplier) ∧
    (Spring.updateSimulation sp m ss).position
        = ss.position + (Spring.updateSimulation sp m ss).velocity
            * (m * sp.gravityMultiplier) := by
  rw [Gravity.gravity_step_skip gp dtg gs h₁ h₂,
    Pendulum.pendulum_step_skip pp dtp ps h₃ h₄,
    Friction.friction_step_skip fp dtf fs h₅ h₆,
    Spring.updateSimulation_running sp m ss h₇]
  exact ⟨rfl, rfl, rfl, rfl, rfl⟩

/-- Claim C2 witness: the hypotheses of `C2_clamp_skip_policies` hold at a
concrete input (with over-clamp measured deltas), and the instantiated
skip and spring conclusions follow by applying it. -/
theorem C2_clamp_skip_policies_witness :
    ((0.2 : ℚ) > 0.1 ∧ (0.07 : ℝ) > 0.05 ∧
      (⟨0, 50, 0, 0, true⟩ : Gravity.State).isRunning = true) ∧
    Gravity.simulate ⟨2, 3, 30, 15, 1⟩ 0.2 ⟨0, 50, 0, 0, true⟩
      = ⟨0, 50, 0, 0, true⟩ ∧
    Friction.simulate ⟨1, 9.8, 0.25, 80, 40, 1.225, 1.05, 700⟩ 0.2 ⟨0, 100, true⟩
      = ⟨0, 100, true⟩ := by
  have h₁ : (⟨0, 50, 0, 0, true⟩ : Gravity.State).isRunning = true := rfl
  have h₂ : (0.2 : ℚ) > 0.1 := by decide
  have h₃ : (Pendulum.startSwing ⟨200, 1, 9.81, 30, 0.002⟩ ⟨0, 0, false⟩).isSwinging
      = true := rfl
  have h₄ : (0.07 : ℝ) > 0.05 := by norm_num
  have h₅ : (⟨0, 100, true⟩ : Friction.State).isSliding = true := rfl
  have h₆ : (0.2 : ℚ) > 0.1 := by decide
  have h₇ : (⟨0.5, 0, 0, 0, true, [(0, 0.5)]⟩ : Spring.State).isRunning = true := rfl
  have key := C2_clamp_skip_policies ⟨2, 3, 30, 15, 1⟩ 0.2 ⟨0, 50, 0, 0, true⟩
    ⟨200, 1, 9.81, 30, 0.002⟩ 0.07
    (Pendulum.startSwing ⟨200, 1, 9.81, 30, 0.002⟩ ⟨0, 0, false⟩)
    ⟨1, 9.8, 0.25, 80, 40, 1.225, 1.05, 700⟩ 0.2 ⟨0, 100, true⟩
    ⟨1, 100, 5, 0.5, 1⟩ 0.016 ⟨0.5, 0, 0, 0, true, [(0, 0.5)]⟩
    h₁ h₂ h₃ h₄ h₅ h₆ h₇
  exact ⟨⟨h₂, h₄, h₁⟩, key.1, key.2.2.1⟩

/-- Claim C3, counterexample: a ball-drop tick from `ballY = 352.9`,
`velocity = 1` bounces, the reflected speed `0.80976` falls below the
rest threshold 1, and the loop stops — but the recorded velocity is the
reflected value, not 0: the ball-drop demo does not snap the velocity to
exactly zero when its rest condition fires. -/
theorem C3_ball_drop_rest_keeps_nonzero_velocity :
    (BallDrop.simulate ⟨1, 9.8, 40⟩ ⟨352.9, 1, true⟩).isDropping = false ∧
    (BallDrop.simulate ⟨1, 9.8, 40⟩ ⟨352.9, 1, true⟩).velocity ≠ 0 := by
  constructor
  · decide
  · decide

/-- Claim C3 (amended): when the rest condition fires, the drag-drop and
friction demos stop and snap the velocity to exactly 0; the ball-drop
demo stops but keeps the reflected post-bounce velocity (of magnitude
below its threshold 1) instead of snapping it to zero. -/
theorem C3_rest_stop_behavior
    (q : DropSim.Params) (t : DropSim.State)
    (fp : Friction.Params) (dtf : ℚ) (fs : Friction.State)
    (p : BallDrop.Params) (s : BallDrop.State)
    (h₁ : t.isDropping = true)
    (h₂ : t.ballY + DropSim.newVelocity q t * DropSim.dt ≥ DropSim.maxDrop - q.objectSize)
    (h₃ : |(-(DropSim.newVelocity q t)) * DropSim.restitution| < 0.5 * DropSim.mToPx)
    (h₄ : fs.isSliding = true) (h₅ : ¬ dtf > 0.1)
    (h₆ : |Friction.newVelocityMs fp dtf fs| ≤ 0.01)
    (h₇ : s.isDropping = true)
    (h₈ : s.ballY + BallDrop.newVelocity p s ≥ BallDrop.maxDrop - p.ballSize)
    (h₉ : |(-(BallDrop.newVelocity p s)) * BallDrop.damping| < 1) :
    (DropSim.simulate q t).isDropping = false ∧
    (DropSim.simulate q t).velocity = 0 ∧
    (Friction.simulate fp dtf fs).isSliding = false ∧
    (Friction.simulate fp dtf fs).velocity = 0 ∧
    (BallDrop.simulate p s).isDropping = false ∧
    (BallDrop.simulate p s).velocity = -(BallDrop.newVelocity p s) * BallDrop.damping ∧
    |(BallDrop.simulate p s).velocity| < 1 := by
  rw [DropSim.dropSim_step_bounce_rest q t h₁ h₂ h₃,
    BallDrop.ballDrop_step_bounce_rest p s h₇ h₈ h₉]
  have hf : (Friction.simulate fp dtf fs).isSliding = false ∧
      (Friction.simulate fp dtf fs).velocity = 0 := by
    simp only [Friction.simulate]
    rw [if_pos h₄, if_neg h₅, if_pos h₆]
    exact ⟨rfl, rfl⟩
  exact ⟨rfl, rfl, hf.1, hf.2, rfl, rfl, h₉⟩

/-- Claim C3 witness: the hypotheses of `C3_rest_stop_behavior` hold at a
concrete input, and the instantiated conclusions follow by applying it. -/
theorem C3_rest_stop_behavior_witness :
    ((⟨620, 4, true⟩ : Friction.State).isSliding = true ∧
      ¬ (0.016 : ℚ) > 0.1 ∧
      |Friction.newVelocityMs ⟨1, 9.8, 0.25, 80, 40, 0, 1.05, 700⟩ 0.016 ⟨620, 4, true⟩|
        ≤ 0.01) ∧
    (Friction.simulate ⟨1, 9.8, 0.25, 80, 40, 0, 1.05, 700⟩ 0.016 ⟨620, 4, true⟩).velocity
      = 0 ∧
    (BallDrop.simulate ⟨1, 9.8, 40⟩ ⟨352.95, 1, true⟩).velocity
      = -(BallDrop.newVelocity ⟨1, 9.8, 40⟩ ⟨352.95, 1, true⟩) * BallDrop.damping := by
  have h₄ : (⟨620, 4, true⟩ : Friction.State).isSliding = true := rfl
  have h₅ : ¬ (0.016 : ℚ) > 0.1 := by decide
  have h₆ : |Friction.newVelocityMs ⟨1, 9.8, 0.25, 80, 40, 0, 1.05, 700⟩ 0.016
      ⟨620, 4, true⟩| ≤ 0.01 := by decide
  have h₇ : (⟨352.95, 1, true⟩ : BallDrop.State).isDropping = true := rfl
  have h₈ : (⟨352.95, 1, true⟩ : BallDrop.State).ballY
      + BallDrop.newVelocity ⟨1, 9.8, 40⟩ ⟨352.95, 1, true⟩
      ≥ BallDrop.maxDrop - (⟨1, 9.8, 40⟩ : BallDrop.Params).ballSize := by decide
  have h₉ : |(-(BallDrop.newVelocity ⟨1, 9.8, 40⟩ ⟨352.95, 1, true⟩))
      * BallDrop.damping| < 1 := by decide
  have h₁ : (⟨353, 40, true⟩ : DropSim.State).isDropping = true := rfl
  have hnv : DropSim.newVelocity ⟨1, 9.8, 40, 0, 0.47⟩ ⟨353, 40, true⟩ = 55.68 := by
    simp only [DropSim.newVelocity, DropSim.totalForce, DropSim.dragForce,
      DropSim.crossSectionArea, DropSim.pxToM, DropSim.mToPx, DropSim.dt]
    norm_num
  have h₂ : (⟨353, 40, true⟩ : DropSim.State).ballY
      + DropSim.newVelocity ⟨1, 9.8, 40, 0, 0.47⟩ ⟨353, 40, true⟩ * DropSim.dt
      ≥ DropSim.maxDrop - (⟨1, 9.8, 40, 0, 0.47⟩ : DropSim.Params).objectSize := by
    rw [hnv]
    simp only [DropSim.maxDrop, DropSim.dt]
    norm_num
  have h₃ : |(-(DropSim.newVelocity ⟨1, 9.8, 40, 0, 0.47⟩ ⟨353, 40, true⟩))
      * DropSim.restitution| < 0.5 * DropSim.mToPx := by
    rw [hnv]
    simp only [DropSim.restitution, DropSim.mToPx]
    rw [abs_of_nonpos (by norm_num)]
    norm_num
  have key := C3_rest_stop_behavior ⟨1, 9.8, 40, 0, 0.47⟩ ⟨353, 40, true⟩
    ⟨1, 9.8, 0.25, 80, 40, 0, 1.05, 700⟩ 0.016 ⟨620, 4, true⟩
    ⟨1, 9.8, 40⟩ ⟨352.95, 1, true⟩
    h₁ h₂ h₃ h₄ h₅ h₆ h₇ h₈ h₉
  exact ⟨⟨h₄, h₅, h₆⟩, key.2.2.2.1, key.2.2.2.2.2.1⟩

set_option maxRecDepth 20000 in
/-- Claim C4: in both drop demos a tick that reaches the ground plane
snaps the position to the contact value and reflects the velocity by the
restitution factor (0.7 ball drop, 0.8 drag drop, both in [0,1)), the
rest condition is re-checked immediately on the same tick (the loop stops
exactly when the reflected speed is below the threshold), a downward
contact reverses the velocity sign and scales its magnitude by the
factor, and the concrete run (mass 1, gravity 9.8, damping 0.7, from
rest) reaches the stopped state with final speed below 1 unit. -/
theorem C4_drop_bounce_and_rest_convergence
    (p : BallDrop.Params) (s : BallDrop.State)
    (q : DropSim.Params) (t : DropSim.State)
    (h₁ : s.isDropping = true)
    (h₂ : s.ballY + BallDrop.newVelocity p s ≥ BallDrop.maxDrop - p.ballSize)
    (h₃ : 0 < BallDrop.newVelocity p s)
    (h₄ : t.isDropping = true)
    (h₅ : t.ballY + DropSim.newVelocity q t * DropSim.dt
        ≥ DropSim.maxDrop - q.objectSize) :
    (BallDrop.simulate p s).ballY = BallDrop.maxDrop - p.ballSize ∧
    (BallDrop.simulate p s).velocity = -(BallDrop.newVelocity p s) * BallDrop.damping ∧
    (BallDrop.simulate p s).velocity < 0 ∧
    |(BallDrop.simulate p s).velocity| = BallDrop.damping * |BallDrop.newVelocity p s| ∧
    ((BallDrop.simulate p s).isDropping = false ↔ |(BallDrop.simulate p s).velocity| < 1) ∧
    (0 ≤ BallDrop.damping ∧ BallDrop.damping < 1) ∧
    (DropSim.simulate q t).ballY = DropSim.maxDrop - q.objectSize ∧
    ((DropSim.simulate q t).isDropping = false
        ↔ |(-(DropSim.newVelocity q t)) * DropSim.restitution| < 0.5 * DropSim.mToPx) ∧
    (¬ |(-(DropSim.newVelocity q t)) * DropSim.restitution| < 0.5 * DropSim.mToPx
        → (DropSim.simulate q t).velocity = -(DropSim.newVelocity q t) * DropSim.restitution) ∧
    (0 ≤ DropSim.restitution ∧ DropSim.restitution < 1) ∧
    (((BallDrop.simulate ⟨1, 9.8, 40⟩)^[331] (BallDrop.startDrop ⟨0, 0, false⟩)).isDropping
        = false ∧
      |((BallDrop.simulate ⟨1, 9.8, 40⟩)^[331] (BallDrop.startDrop ⟨0, 0, false⟩)).velocity|
        < 1) := by
  have hd0 : (0 : ℚ) ≤ BallDrop.damping := by decide
  have hdpos : (0 : ℚ) < BallDrop.damping := by decide
  have hbd : (BallDrop.simulate p s).ballY = BallDrop.maxDrop - p.ballSize ∧
      (BallDrop.simulate p s).velocity = -(BallDrop.newVelocity p s) * BallDrop.damping ∧
      ((BallDrop.simulate p s).isDropping = false
        ↔ |(-(BallDrop.newVelocity p s)) * BallDrop.damping| < 1) := by
    by_cases hr : |(-(BallDrop.newVelocity p s)) * BallDrop.damping| < 1
    · rw [BallDrop.ballDrop_step_bounce_rest p s h₁ h₂ hr]
      exact ⟨rfl, rfl, by simpa using hr⟩
    · rw [BallDrop.ballDrop_step_bounce_continue p s h₁ h₂ hr]
      exact ⟨rfl, rfl, by simpa using hr⟩
  have hds : (DropSim.simulate q t).ballY = DropSim.maxDrop - q.objectSize ∧
      ((DropSim.simulate q t).isDropping = false
        ↔ |(-(DropSim.newVelocity q t)) * DropSim.restitution| < 0.5 * DropSim.mToPx) ∧
      (¬ |(-(DropSim.newVelocity q t)) * DropSim.restitution| < 0.5 * DropSim.mToPx
        → (DropSim.simulate q t).velocity
            = -(DropSim.newVelocity q t) * DropSim.restitution) := by
    by_cases hr : |(-(DropSim.newVelocity q t)) * DropSim.restitution| < 0.5 * DropSim.mToPx
    · rw [DropSim.dropSim_step_bounce_rest q t h₄ h₅ hr]
      exact ⟨rfl, by simpa using hr, fun hn => absurd hr hn⟩
    · rw [DropSim.dropSim_step_bounce_continue q t h₄ h₅ hr]
      exact ⟨rfl, by simpa using hr, fun _ => rfl⟩
  refine ⟨hbd.1, hbd.2.1, ?_, ?_, ?_, ⟨hd0, by decide⟩, hds.1, hds.2.1, hds.2.2,
    ⟨by norm_num [DropSim.restitution], by norm_num [DropSim.restitution]⟩, ?_, ?_⟩
  · rw [hbd.2.1, neg_mul]
    exact neg_lt_zero.mpr (mul_pos h₃ hdpos)
  · rw [hbd.2.1, abs_mul, abs_neg, abs_of_nonneg hd0, mul_comm]
  · rw [hbd.2.1]
    exact hbd.2.2
  · decide
  · decide

/-- Claim C4 witness: the hypotheses of `C4_drop_bounce_and_rest_convergence`
hold at a concrete bouncing tick of each drop demo, and the instantiated
snap-and-reflect conclusions follow by applying it. -/
theorem C4_drop_bounce_and_rest_convergence_witness :
    ((⟨352.9, 1, true⟩ : BallDrop.State).isDropping = true ∧
      (⟨352.9, 1, true⟩ : BallDrop.State).ballY
          + BallDrop.newVelocity ⟨1, 9.8, 40⟩ ⟨352.9, 1, true⟩
        ≥ BallDrop.maxDrop - 40 ∧
      0 < BallDrop.newVelocity ⟨1, 9.8, 40⟩ ⟨352.9, 1, true⟩) ∧
    (BallDrop.simulate ⟨1, 9.8, 40⟩ ⟨352.9, 1, true⟩).ballY = BallDrop.maxDrop - 40 ∧
    (BallDrop.simulate ⟨1, 9.8, 40⟩ ⟨352.9, 1, true⟩).velocity
      = -(BallDrop.newVelocity ⟨1, 9.8, 40⟩ ⟨352.9, 1, true⟩) * BallDrop.damping ∧
    (DropSim.simulate ⟨1, 9.8, 40, 0, 0.47⟩ ⟨353.2, 40, true⟩).ballY
      = DropSim.maxDrop - 40 := by
  have h₁ : (⟨352.9, 1, true⟩ : BallDrop.State).isDropping = true := rfl
  have h₂ : (⟨352.9, 1, true⟩ : BallDrop.State).ballY
      + BallDrop.newVelocity ⟨1, 9.8, 40⟩ ⟨352.9, 1, true⟩
      ≥ BallDrop.maxDrop - (⟨1, 9.8, 40⟩ : BallDrop.Params).ballSize := by decide
  have h₃ : 0 < BallDrop.newVelocity ⟨1, 9.8, 40⟩ ⟨352.9, 1, true⟩ := by decide
  have h₄ : (⟨353.2, 40, true⟩ : DropSim.State).isDropping = true := rfl
  have hnv : DropSim.newVelocity ⟨1, 9.8, 40, 0, 0.47⟩ ⟨353.2, 40, true⟩ = 55.68 := by
    simp only [DropSim.newVelocity, DropSim.totalForce, DropSim.dragForce,
      DropSim.crossSectionArea, DropSim.pxToM, DropSim.mToPx, DropSim.dt]
    norm_num
  have h₅ : (⟨353.2, 40, true⟩ : DropSim.State).ballY
      + DropSim.newVelocity ⟨1, 9.8, 40, 0, 0.47⟩ ⟨353.2, 40, true⟩ * DropSim.dt
      ≥ DropSim.maxDrop - (⟨1, 9.8, 40, 0, 0.47⟩ : DropSim.Params).objectSize := by
    rw [hnv]
    simp only [DropSim.maxDrop, DropSim.dt]
    norm_num
  have key := C4_drop_bounce_and_rest_convergence ⟨1, 9.8, 40⟩ ⟨352.9, 1, true⟩
    ⟨1, 9.8, 40, 0, 0.47⟩ ⟨353.2, 40, true⟩ h₁ h₂ h₃ h₄ h₅
  exact ⟨⟨h₁, h₂, h₃⟩, key.1, key.2.1, key.2.2.2.2.2.2.1⟩

/-- Claim C5: on every integrating tick of the two-body demo the velocity
increments come from the same force magnitude and the same `dt` with
opposite directions, and they satisfy the momentum-symmetry relation
`mass1 * Δv1 = -(mass2 * Δv2)` exactly (the embedding is over `ℚ`). -/
theorem C5_two_body_momentum_symmetry
    (p : Gravity.Params) (dt : ℚ) (s : Gravity.State)
    (h₁ : s.isRunning = true) (h₂ : ¬ dt > 0.1)
    (h₃ : ¬ Gravity.distanceMeters s ≤ (p.radius1 + p.radius2) * Gravity.pxToM)
    (hm₁ : p.mass1 ≠ 0) (hm₂ : p.mass2 ≠ 0) :
    (Gravity.simulate p dt s).vel1X - s.vel1X
        = Gravity.gravitationalForce p s * p.gravityMultiplier / p.mass1
            * dt * Gravity.direction s ∧
    (Gravity.simulate p dt s).vel2X - s.vel2X
        = -(Gravity.gravitationalForce p s * p.gravityMultiplier / p.mass2
            * dt * Gravity.direction s) ∧
    p.mass1 * ((Gravity.simulate p dt s).vel1X - s.vel1X)
        = -(p.mass2 * ((Gravity.simulate p dt s).vel2X - s.vel2X)) := by
  rw [Gravity.gravity_step_integrate p dt s h₁ h₂ h₃]
  refine ⟨by ring, by ring, ?_⟩
  show p.mass1 * (s.vel1X + Gravity.gravitationalForce p s * p.gravityMultiplier / p.mass1
      * dt * Gravity.direction s - s.vel1X)
    = -(p.mass2 * (s.vel2X - Gravity.gravitationalForce p s * p.gravityMultiplier / p.mass2
      * dt * Gravity.direction s - s.vel2X))
  field_simp
  ring

/-- Claim C5 witness: the hypotheses of `C5_two_body_momentum_symmetry`
hold at a concrete integrating tick, and the instantiated momentum
relation follows by applying it. -/
theorem C5_two_body_momentum_symmetry_witness :
    ((⟨0, 50, 0, 0, true⟩ : Gravity.State).isRunning = true ∧
      ¬ (0.016 : ℚ) > 0.1 ∧
      ¬ Gravity.distanceMeters ⟨0, 50, 0, 0, true⟩ ≤ ((30 : ℚ) + 15) * Gravity.pxToM ∧
      (2 : ℚ) ≠ 0 ∧ (3 : ℚ) ≠ 0) ∧
    (2 : ℚ) * ((Gravity.simulate ⟨2, 3, 30, 15, 1⟩ 0.016 ⟨0, 50, 0, 0, true⟩).vel1X - 0)
      = -((3 : ℚ)
          * ((Gravity.simulate ⟨2, 3, 30, 15, 1⟩ 0.016 ⟨0, 50, 0, 0, true⟩).vel2X - 0)) := by
  have h₁ : (⟨0, 50, 0, 0, true⟩ : Gravity.State).isRunning = true := rfl
  have h₂ : ¬ (0.016 : ℚ) > 0.1 := by decide
  have h₃ : ¬ Gravity.distanceMeters ⟨0, 50, 0, 0, true⟩
      ≤ ((⟨2, 3, 30, 15, 1⟩ : Gravity.Params).radius1
          + (⟨2, 3, 30, 15, 1⟩ : Gravity.Params).radius2) * Gravity.pxToM := by decide
  have hm₁ : (⟨2, 3, 30, 15, 1⟩ : Gravity.Params).mass1 ≠ 0 := by decide
  have hm₂ : (⟨2, 3, 30, 15, 1⟩ : Gravity.Params).mass2 ≠ 0 := by decide
  have key := C5_two_body_momentum_symmetry ⟨2, 3, 30, 15, 1⟩ 0.016 ⟨0, 50, 0, 0, true⟩
    h₁ h₂ h₃ hm₁ hm₂
  exact ⟨⟨h₁, h₂, h₃, hm₁, hm₂⟩, key.2.2⟩

/-- Claim C6, counterexample: a tick whose position update brings the
separation within the sum of the body radii does not stop the run on
that same tick — the contact check runs only at the start of the next
executed tick, so after the crossing tick the state is still running. -/
theorem C6_contact_not_stopped_on_crossing_step :
    Gravity.distanceMeters
        (Gravity.simulate ⟨1, 1, 30, 15, 0⟩ 0.1 ⟨0, 50, 50000000, 0, true⟩)
      ≤ ((30 : ℚ) + 15) * Gravity.pxToM ∧
    (Gravity.simulate ⟨1, 1, 30, 15, 0⟩ 0.1 ⟨0, 50, 50000000, 0, true⟩).isRunning
      = true := by
  constructor
  · decide
  · decide

/-- Claim C6 (amended): the two-body contact check runs once per executed
tick, at the start of the tick (before that tick's integration, and after
the dt-skip check): when the separation is within the sum of the radii at
that point the run stops unconditionally with every position and velocity
left untouched (no restitution); a tick whose measured `dt` exceeds the
0.1 s clamp is skipped without performing the check. -/
theorem C6_contact_stop_at_tick_start
    (p : Gravity.Params) (dt dtBig : ℚ) (s : Gravity.State)
    (h₁ : s.isRunning = true) (h₂ : ¬ dt > 0.1)
    (h₃ : Gravity.distanceMeters s ≤ (p.radius1 + p.radius2) * Gravity.pxToM)
    (h₄ : dtBig > 0.1) :
    Gravity.simulate p dt s = { s with isRunning := false } ∧
    (Gravity.simulate p dt s).pos1X = s.pos1X ∧
    (Gravity.simulate p dt s).pos2X = s.pos2X ∧
    (Gravity.simulate p dt s).vel1X = s.vel1X ∧
    (Gravity.simulate p dt s).vel2X = s.vel2X ∧
    (Gravity.simulate p dt s).isRunning = false ∧
    Gravity.simulate p dtBig s = s := by
  rw [Gravity.gravity_step_contact_stop p dt s h₁ h₂ h₃,
    Gravity.gravity_step_skip p dtBig s h₁ h₄]
  exact ⟨rfl, rfl, rfl, rfl, rfl, rfl, rfl⟩

/-- Claim C6 witness: the hypotheses of `C6_contact_stop_at_tick_start`
hold at a concrete in-contact state, and the instantiated stop conclusion
follows by applying it. -/
theorem C6_contact_stop_at_tick_start_witness :
    ((⟨0, 40, 0, 0, true⟩ : Gravity.State).isRunning = true ∧
      ¬ (0.016 : ℚ) > 0.1 ∧
      Gravity.distanceMeters ⟨0, 40, 0, 0, true⟩ ≤ ((30 : ℚ) + 15) * Gravity.pxToM ∧
      (0.2 : ℚ) > 0.1) ∧
    Gravity.simulate ⟨1, 1, 30, 15, 0⟩ 0.016 ⟨0, 40, 0, 0, true⟩
      = ⟨0, 40, 0, 0, false⟩ ∧
    Gravity.simulate ⟨1, 1, 30, 15, 0⟩ 0.2 ⟨0, 40, 0, 0, true⟩
      = ⟨0, 40, 0, 0, true⟩ := by
  have h₁ : (⟨0, 40, 0, 0, true⟩ : Gravity.State).isRunning = true := rfl
  have h₂ : ¬ (0.016 : ℚ) > 0.1 := by decide
  have h₃ : Gravity.distanceMeters ⟨0, 40, 0, 0, true⟩
      ≤ ((⟨1, 1, 30, 15, 0⟩ : Gravity.Params).radius1
          + (⟨1, 1, 30, 15, 0⟩ : Gravity.Params).radius2) * Gravity.pxToM := by decide
  have h₄ : (0.2 : ℚ) > 0.1 := by decide
  have key := C6_contact_stop_at_tick_start ⟨1, 1, 30, 15, 0⟩ 0.016 0.2
    ⟨0, 40, 0, 0, true⟩ h₁ h₂ h₃ h₄
  exact ⟨⟨h₁, h₂, h₃, h₄⟩, key.1, key.2.2.2.2.2.2⟩

/-- Claim C7: the displayed pendulum period equals the small-angle
formula `2π·√(L/g)` (with `L = length/100` in meters) times the series
correction `1 + θ0²/16 + 11θ0⁴/3072` exactly when `θ0 = |angle|·π/180`
exceeds 0.1 rad, and the uncorrected small-angle value otherwise; and for
length 200 px (2 m) and gravity 9.81 the small-angle value lies within
0.01 of 2.84 s. -/
theorem C7_pendulum_period_formula (p : Pendulum.Params) :
    (|p.initialAngle| * (Real.pi / 180) > 0.1 →
      Pendulum.period p
        = 2 * Real.pi * Real.sqrt (Pendulum.lengthMeters p / p.gravity)
          * (1 + (|p.initialAngle| * (Real.pi / 180)) ^ 2 / 16
             + 11 * (|p.initialAngle| * (Real.pi / 180)) ^ 4 / 3072)) ∧
    (¬ |p.initialAngle| * (Real.pi / 180) > 0.1 →
      Pendulum.period p = 2 * Real.pi * Real.sqrt (Pendulum.lengthMeters p / p.gravity)) ∧
    |2 * Real.pi * Real.sqrt (Pendulum.lengthMeters ⟨200, 1, 9.81, 30, 0⟩ / 9.81) - 2.84|
      < 0.01 := by
  refine ⟨?_, ?_, ?_⟩
  · intro h
    simp only [Pendulum.period]
    rw [if_pos h]
  · intro h
    simp only [Pendulum.period]
    rw [if_neg h]
  · have hL : Pendulum.lengthMeters ⟨200, 1, 9.81, 30, 0⟩ = 2 := by
      norm_num [Pendulum.lengthMeters]
    rw [hL]
    have hs1 : (0.4515 : ℝ) ≤ Real.sqrt (2 / 9.81) := by
      rw [Real.le_sqrt' (by norm_num)]
      norm_num
    have hs2 : Real.sqrt (2 / 9.81) < 0.4516 := by
      rw [Real.sqrt_lt' (by norm_num)]
      norm_num
    have hp1 := Real.pi_gt_d4
    have hp2 := Real.pi_lt_d4
    rw [abs_lt]
    constructor <;> nlinarith

/-- Claim C7 witness: at length 200 px, gravity 9.81 and initial angle
30 degrees the large-angle branch fires (`θ0 = π/6 > 0.1`), and the
instantiated corrected-period equation follows by applying
`C7_pendulum_period_formula`. -/
theorem C7_pendulum_period_formula_witness :
    (|(30 : ℝ)| * (Real.pi / 180) > 0.1) ∧
    Pendulum.period ⟨200, 1, 9.81, 30, 0⟩
      = 2 * Real.pi * Real.sqrt (Pendulum.lengthMeters ⟨200, 1, 9.81, 30, 0⟩ / 9.81)
        * (1 + (|(30 : ℝ)| * (Real.pi / 180)) ^ 2 / 16
           + 11 * (|(30 : ℝ)| * (Real.pi / 180)) ^ 4 / 3072) := by
  have hθ : |(30 : ℝ)| * (Real.pi / 180) > 0.1 := by
    rw [abs_of_pos (by norm_num : (0 : ℝ) < 30)]
    nlinarith [Real.pi_gt_three]
  exact ⟨hθ, (C7_pendulum_period_formula ⟨200, 1, 9.81, 30, 0⟩).1 hθ⟩

/-- Claim C8: restarting is idempotent in every demo — a second `start`
with no intervening tick leaves the state equal to a single `start` from
the same parameters.  The ball-drop, drag-drop, gravity, pendulum,
friction and projectile resets ignore the prior state entirely; the
spring start is a guarded no-op while running, so from a non-running
state the first call resets everything (position, velocity, elapsed
time, trajectory) and the second call changes nothing. -/
theorem C8_idempotent_restart
    (bs : BallDrop.State)
    (sp : Spring.Params) (ss : Spring.State)
    (pp : Pendulum.Params) (ps : Pendulum.State)
    (qs : DropSim.State)
    (gp : Gravity.Params) (gw gd gv : ℚ) (gs : Gravity.State)
    (fv : ℚ) (fs : Friction.State)
    (jp : Projectile.Params) (js : Projectile.State)
    (h : ss.isRunning = false) :
    BallDrop.startDrop (BallDrop.startDrop bs) = BallDrop.startDrop bs ∧
    BallDrop.startDrop bs = ⟨0, 0, true⟩ ∧
    Spring.startSimulation sp (Spring.startSimulation sp ss)
      = Spring.startSimulation sp ss ∧
    (Spring.startSimulation sp ss).position = sp.initialDisplacement ∧
    (Spring.startSimulation sp ss).velocity = 0 ∧
    (Spring.startSimulation sp ss).time = 0 ∧
    (Spring.startSimulation sp ss).pathPoints = [(0, sp.initialDisplacement)] ∧
    (Spring.startSimulation sp ss).isRunning = true ∧
    Pendulum.startSwing pp (Pendulum.startSwing pp ps) = Pendulum.startSwing pp ps ∧
    (Pendulum.startSwing pp ps).angle = pp.initialAngle * (Real.pi / 180) ∧
    (Pendulum.startSwing pp ps).angularVelocity = 0 ∧
    DropSim.startDrop (DropSim.startDrop qs) = DropSim.startDrop qs ∧
    DropSim.startDrop qs = ⟨0, 0, true⟩ ∧
    Gravity.startSimulation gp gw gd gv (Gravity.startSimulation gp gw gd gv gs)
      = Gravity.startSimulation gp gw gd gv gs ∧
    Gravity.startSimulation gp gw gd gv gs
      = ⟨gw / 2 - gd / 2 - gp.radius1, gw / 2 + gd / 2 - gp.radius2, gv, -gv, true⟩ ∧
    Friction.startSlide fv (Friction.startSlide fv fs) = Friction.startSlide fv fs ∧
    Friction.startSlide fv fs = ⟨0, fv * Friction.mToPx, true⟩ ∧
    Projectile.startSimulation jp (Projectile.startSimulation jp js)
      = Projectile.startSimulation jp js ∧
    Projectile.startSimulation jp js
      = ⟨0, jp.initialHeight * Projectile.pxPerMeter, true,
         [(0, jp.initialHeight * Projectile.pxPerMeter)]⟩ := by
  have hstart : Spring.startSimulation sp ss
      = ⟨sp.initialDisplacement, 0, 0, 0, true, [(0, sp.initialDisplacement)]⟩ := by
    simp only [Spring.startSimulation]
    rw [if_neg (by simp [h])]
  have hidem : Spring.startSimulation sp (Spring.startSimulation sp ss)
      = Spring.startSimulation sp ss := by
    rw [hstart]
    simp [Spring.startSimulation]
  rw [hstart] at hidem ⊢
  exact ⟨rfl, rfl, hidem, rfl, rfl, rfl, rfl, rfl, rfl, rfl, rfl, rfl, rfl, rfl, rfl,
    rfl, rfl, rfl, rfl⟩

/-- Claim C8 witness: the hypothesis of `C8_idempotent_restart` holds at
a concrete non-running spring state, and the instantiated idempotence and
reset conclusions (spring, ball drop, drag drop, friction) follow by
applying it. -/
theorem C8_idempotent_restart_witness :
    ((⟨1, 2, 3, 4, false, [(9, 9)]⟩ : Spring.State).isRunning = false) ∧
    Spring.startSimulation ⟨1, 100, 5, 0.5, 1⟩
        (Spring.startSimulation ⟨1, 100, 5, 0.5, 1⟩ ⟨1, 2, 3, 4, false, [(9, 9)]⟩)
      = Spring.startSimulation ⟨1, 100, 5, 0.5, 1⟩ ⟨1, 2, 3, 4, false, [(9, 9)]⟩ ∧
    (Spring.startSimulation ⟨1, 100, 5, 0.5, 1⟩ ⟨1, 2, 3, 4, false, [(9, 9)]⟩).position
      = 0.5 ∧
    (Spring.startSimulation ⟨1, 100, 5, 0.5, 1⟩ ⟨1, 2, 3, 4, false, [(9, 9)]⟩).velocity
      = 0 ∧
    BallDrop.startDrop (BallDrop.startDrop ⟨17, -3, true⟩)
      = BallDrop.startDrop ⟨17, -3, true⟩ ∧
    DropSim.startDrop (DropSim.startDrop ⟨211, 55, true⟩)
      = DropSim.startDrop ⟨211, 55, true⟩ ∧
    Friction.startSlide 1 (Friction.startSlide 1 ⟨350, -20, true⟩)
      = Friction.startSlide 1 ⟨350, -20, true⟩ ∧
    Friction.startSlide 1 ⟨350, -20, true⟩ = ⟨0, 1 * Friction.mToPx, true⟩ ∧
    Projectile.startSimulation ⟨45, 30, 0, 9.81, 1⟩
        (Projectile.startSimulation ⟨45, 30, 0, 9.81, 1⟩ ⟨7, 8, true, [(1, 1)]⟩)
      = Projectile.startSimulation ⟨45, 30, 0, 9.81, 1⟩ ⟨7, 8, true, [(1, 1)]⟩ := by
  have h : (⟨1, 2, 3, 4, false, [(9, 9)]⟩ : Spring.State).isRunning = false := rfl
  have key := C8_idempotent_restart ⟨17, -3, true⟩ ⟨1, 100, 5, 0.5, 1⟩
    ⟨1, 2, 3, 4, false, [(9, 9)]⟩ ⟨200, 1, 9.81, 30, 0.002⟩ ⟨0, 0, false⟩
    ⟨211, 55, true⟩ ⟨1, 1, 30, 15, 0⟩ 600 300 0 ⟨0, 50, 0, 0, true⟩
    1 ⟨350, -20, true⟩ ⟨45, 30, 0, 9.81, 1⟩ ⟨7, 8, true, [(1, 1)]⟩ h
  obtain ⟨a1, a2, a3, a4, a5, a6, a7, a8, a9, a10, a11, a12, a13, a14, a15,
    a16, a17, a18, a19⟩ := key
  exact ⟨h, a3, a4, a5, a1, a12, a16, a17, a18⟩

/-- Claim C9: in the projectile demo every tick leaves a non-negative
stored vertical position (the closed-form `y` is clamped by
`Math.max(y, 0)` before the pixel scaling), and once the clamped elapsed
time reaches the computed total flight time the final position is set
exactly to the computed landing point with `posY = 0` and the run
stops. -/
theorem C9_projectile_ground_clamp_and_landing
    (p : Projectile.Params) (rawElapsed : ℝ) (s : Projectile.State) :
    (Projectile.step p rawElapsed s).posY ≥ 0 ∧
    (rawElapsed * p.gravityMultiplier ≥ Projectile.totalFlightTime p →
      (Projectile.step p rawElapsed s).posX = Projectile.landingX p ∧
      (Projectile.step p rawElapsed s).posY = 0 ∧
      (Projectile.step p rawElapsed s).isRunning = false) := by
  constructor
  · simp only [Projectile.step]
    split_ifs <;>
      simp only [ge_iff_le, le_refl] <;>
      exact mul_nonneg (le_max_right _ 0) (by norm_num [Projectile.pxPerMeter])
  · intro h
    have hmin : min (rawElapsed * p.gravityMultiplier) (Projectile.totalFlightTime p)
        ≥ Projectile.totalFlightTime p := le_min h le_rfl
    simp only [Projectile.step]
    rw [if_pos hmin]
    exact ⟨rfl, rfl, rfl⟩

/-- Claim C9 witness: with launch velocity 0 from height 0 the total
flight time evaluates to 0, the landing hypothesis holds at measured
elapsed time 1, and the instantiated landing conclusions follow by
applying `C9_projectile_ground_clamp_and_landing`. -/
theorem C9_projectile_ground_clamp_and_landing_witness :
    ((1 : ℝ) * 1 ≥ Projectile.totalFlightTime ⟨45, 0, 0, 9.81, 1⟩) ∧
    (Projectile.step ⟨45, 0, 0, 9.81, 1⟩ 1 ⟨0, 0, true, []⟩).posY ≥ 0 ∧
    (Projectile.step ⟨45, 0, 0, 9.81, 1⟩ 1 ⟨0, 0, true, []⟩).posX
      = Projectile.landingX ⟨45, 0, 0, 9.81, 1⟩ ∧
    (Projectile.step ⟨45, 0, 0, 9.81, 1⟩ 1 ⟨0, 0, true, []⟩).posY = 0 ∧
    (Projectile.step ⟨45, 0, 0, 9.81, 1⟩ 1 ⟨0, 0, true, []⟩).isRunning = false := by
  have hT : Projectile.totalFlightTime ⟨45, 0, 0, 9.81, 1⟩ = 0 := by
    simp [Projectile.totalFlightTime, Projectile.vy0]
  have h : (1 : ℝ) * 1 ≥ Projectile.totalFlightTime ⟨45, 0, 0, 9.81, 1⟩ := by
    rw [hT]
    norm_num
  have key := C9_projectile_ground_clamp_and_landing ⟨45, 0, 0, 9.81, 1⟩ 1 ⟨0, 0, true, []⟩
  exact ⟨h, key.1, (key.2 h).1, (key.2 h).2.1, (key.2 h).2.2⟩

/-- Claim C10: after boundary handling on every integrating tick of the
friction-slider demo (with the box no wider than the track) the box
position satisfies `0 ≤ positionX ≤ maxDistance - objectWidth`; a tick
that reaches the right wall snaps to `maxDistance - objectWidth` with
velocity `-|v| * 0.5`, and one that reaches the left wall snaps to 0 with
velocity `|v| * 0.5` (stated for ticks on which the rest condition does
not also fire, which would zero the velocity instead). -/
theorem C10_friction_track_invariant
    (p : Friction.Params) (dt : ℚ) (s : Friction.State)
    (h₁ : s.isSliding = true) (h₂ : ¬ dt > 0.1)
    (h₃ : p.objectWidth ≤ p.maxDistance) :
    (0 ≤ (Friction.simulate p dt s).positionX ∧
      (Friction.simulate p dt s).positionX ≤ p.maxDistance - p.objectWidth) ∧
    (Friction.newPosition p dt s + p.objectWidth ≥ p.maxDistance →
      ¬ |Friction.newVelocityMs p dt s| ≤ 0.01 →
      (Friction.simulate p dt s).positionX = p.maxDistance - p.objectWidth ∧
      (Friction.simulate p dt s).velocity
        = -|Friction.newVelocityMs p dt s * Friction.mToPx| * Friction.restitution) ∧
    (¬ Friction.newPosition p dt s + p.objectWidth ≥ p.maxDistance →
      Friction.newPosition p dt s ≤ 0 →
      ¬ |Friction.newVelocityMs p dt s| ≤ 0.01 →
      (Friction.simulate p dt s).positionX = 0 ∧
      (Friction.simulate p dt s).velocity
        = |Friction.newVelocityMs p dt s * Friction.mToPx| * Friction.restitution) := by
  have hpos : (Friction.simulate p dt s).positionX
      = (if Friction.newPosition p dt s + p.objectWidth ≥ p.maxDistance then
          p.maxDistance - p.objectWidth
        else if Friction.newPosition p dt s ≤ 0 then 0
        else Friction.newPosition p dt s) := by
    simp only [Friction.simulate]
    rw [if_pos h₁, if_neg h₂]
    split_ifs <;> rfl
  have hvel : ¬ |Friction.newVelocityMs p dt s| ≤ 0.01 →
      (Friction.simulate p dt s).velocity
        = (if Friction.newPosition p dt s + p.objectWidth ≥ p.maxDistance then
            -|Friction.newVelocityMs p dt s * Friction.mToPx| * Friction.restitution
          else if Friction.newPosition p dt s ≤ 0 then
            |Friction.newVelocityMs p dt s * Friction.mToPx| * Friction.restitution
          else Friction.newVelocityMs p dt s * Friction.mToPx) := by
    intro hnr
    simp only [Friction.simulate]
    rw [if_pos h₁, if_neg h₂, if_neg hnr]
    split_ifs <;> rfl
  refine ⟨?_, ?_, ?_⟩
  · rw [hpos]
    split_ifs with hw hl
    · constructor
      · linarith
      · linarith
    · constructor
      · linarith
      · linarith
    · have hw2 : Friction.newPosition p dt s + p.objectWidth < p.maxDistance :=
        not_le.mp hw
      have hl2 : 0 < Friction.newPosition p dt s := not_le.mp hl
      constructor
      · linarith
      · linarith
  · intro hw hnr
    constructor
    · rw [hpos, if_pos hw]
    · rw [hvel hnr, if_pos hw]
  · intro hw hl hnr
    constructor
    · rw [hpos, if_neg hw, if_pos hl]
    · rw [hvel hnr, if_neg hw, if_pos hl]

/-- Claim C10 witness: the hypotheses of `C10_friction_track_invariant`
hold at a concrete right-wall tick, and the instantiated invariant and
right-wall snap conclusions follow by applying it. -/
theorem C10_friction_track_invariant_witness :
    ((⟨690, 100, true⟩ : Friction.State).isSliding = true ∧
      ¬ (0.1 : ℚ) > 0.1 ∧ (80 : ℚ) ≤ 700 ∧
      Friction.newPosition ⟨1, 0, 0.25, 80, 40, 0, 1.05, 700⟩ 0.1 ⟨690, 100, true⟩
          + 80 ≥ 700 ∧
      ¬ |Friction.newVelocityMs ⟨1, 0, 0.25, 80, 40, 0, 1.05, 700⟩ 0.1 ⟨690, 100, true⟩|
          ≤ 0.01) ∧
    0 ≤ (Friction.simulate ⟨1, 0, 0.25, 80, 40, 0, 1.05, 700⟩ 0.1 ⟨690, 100, true⟩).positionX ∧
    (Friction.simulate ⟨1, 0, 0.25, 80, 40, 0, 1.05, 700⟩ 0.1 ⟨690, 100, true⟩).positionX
      = 700 - 80 := by
  have h₁ : (⟨690, 100, true⟩ : Friction.State).isSliding = true := rfl
  have h₂ : ¬ (0.1 : ℚ) > 0.1 := by decide
  have h₃ : (⟨1, 0, 0.25, 80, 40, 0, 1.05, 700⟩ : Friction.Params).objectWidth
      ≤ (⟨1, 0, 0.25, 80, 40, 0, 1.05, 700⟩ : Friction.Params).maxDistance := by decide
  have hw : Friction.newPosition ⟨1, 0, 0.25, 80, 40, 0, 1.05, 700⟩ 0.1 ⟨690, 100, true⟩
      + (⟨1, 0, 0.25, 80, 40, 0, 1.05, 700⟩ : Friction.Params).objectWidth
      ≥ (⟨1, 0, 0.25, 80, 40, 0, 1.05, 700⟩ : Friction.Params).maxDistance := by decide
  have hnr : ¬ |Friction.newVelocityMs ⟨1, 0, 0.25, 80, 40, 0, 1.05, 700⟩ 0.1
      ⟨690, 100, true⟩| ≤ 0.01 := by decide
  have key := C10_friction_track_invariant ⟨1, 0, 0.25, 80, 40, 0, 1.05, 700⟩ 0.1
    ⟨690, 100, true⟩ h₁ h₂ h₃
  exact ⟨⟨h₁, h₂, h₃, hw, hnr⟩, key.1.1, (key.2.1 hw hnr).1⟩

end
